import Mathlib

/-!
Shallow embedding of the Study-Noise-App audio engine and proofs about it.

Sources embedded:
- createNoiseProcessor (the noise-generator module): per-sample synthesis
  for the white, pink and brown noise types, and the setType control.
- App.jsx: the preset table, applyNoiseTuning, initAudio (audio-graph
  construction and connection topology), toggleRain, and changeNoise
  (the timed noise-type transition using a 100 ms timeout).

Real numbers of the program are modelled as rationals; the uniform draws
(Math.random times 2 minus 1) are modelled as arbitrary inputs in [-1, 1].
-/

namespace ZenEngine

/-- Mutable state captured by the createNoiseProcessor closure: the active
noise type string, the seven pink-filter accumulators b0..b6, and the brown
integrator memory lastOut. -/
structure NoiseState where
  noiseType : String
  b0 : ℚ
  b1 : ℚ
  b2 : ℚ
  b3 : ℚ
  b4 : ℚ
  b5 : ℚ
  b6 : ℚ
  lastOut : ℚ
  deriving Repr, DecidableEq

/-- Initial closure state of createNoiseProcessor: type white, all
accumulators zero. -/
def initialNoiseState : NoiseState :=
  { noiseType := "white", b0 := 0, b1 := 0, b2 := 0, b3 := 0, b4 := 0
    b5 := 0, b6 := 0, lastOut := 0 }

/-- One iteration of the onaudioprocess per-sample loop: given the state and
the uniform draw, returns the updated state and the sample written to the
output buffer.  When no branch matches the current noiseType the loop body
writes nothing, so the sample keeps the zero value the host initializes
output buffers with. -/
def noiseStep (s : NoiseState) (white : ℚ) : NoiseState × ℚ :=
  if s.noiseType = "white" then
    (s, white * 0.2)
  else if s.noiseType = "pink" then
    let nb0 : ℚ := 0.99886 * s.b0 + white * 0.0555179
    let nb1 : ℚ := 0.99332 * s.b1 + white * 0.0750759
    let nb2 : ℚ := 0.96900 * s.b2 + white * 0.1538520
    let nb3 : ℚ := 0.86650 * s.b3 + white * 0.3104856
    let nb4 : ℚ := 0.55000 * s.b4 + white * 0.5329522
    let nb5 : ℚ := -0.7616 * s.b5 - white * 0.0168980
    let out : ℚ := (nb0 + nb1 + nb2 + nb3 + nb4 + nb5 + s.b6 + white * 0.5362) * 0.15
    let nb6 : ℚ := white * 0.115926
    ({ s with b0 := nb0, b1 := nb1, b2 := nb2, b3 := nb3, b4 := nb4
              b5 := nb5, b6 := nb6 }, out)
  else if s.noiseType = "brown" then
    let nl : ℚ := (s.lastOut + 0.02 * white) / 1.02
    ({ s with lastOut := nl }, nl * 3.5)
  else
    (s, 0)

/-- The onaudioprocess loop over a whole output buffer: one uniform draw per
sample, threading the closure state; returns the final state and the list of
samples written. -/
def generateBlock : NoiseState → List ℚ → NoiseState × List ℚ
  | s, [] => (s, [])
  | s, w :: ws =>
    let r := noiseStep s w
    let rest := generateBlock r.1 ws
    (rest.1, r.2 :: rest.2)

/-- The setType control returned by createNoiseProcessor: it assigns the
noiseType variable and nothing else. -/
def setType (s : NoiseState) (t : String) : NoiseState :=
  { s with noiseType := t }

theorem noiseStep_white (s : NoiseState) (hs : s.noiseType = "white") (w : ℚ) :
    noiseStep s w = (s, w * 0.2) := by
  simp [noiseStep, hs]

theorem noiseStep_brown (s : NoiseState) (hs : s.noiseType = "brown") (w : ℚ) :
    noiseStep s w =
      ({ s with lastOut := (s.lastOut + 0.02 * w) / 1.02 },
       ((s.lastOut + 0.02 * w) / 1.02) * 3.5) := by
  simp [noiseStep, hs]

theorem noiseStep_other (s : NoiseState) (h1 : s.noiseType ≠ "white")
    (h2 : s.noiseType ≠ "pink") (h3 : s.noiseType ≠ "brown") (w : ℚ) :
    noiseStep s w = (s, 0) := by
  simp [noiseStep, h1, h2, h3]

/-- Claim C2 (amended): for the white noise type, every block of samples
generated from draws in [-1, 1] lies in [-1, 1] (each sample is the draw
times 0.2).  As originally stated for all three types the claim is false:
see the brown counterexample below. -/
theorem white_block_in_range (s : NoiseState) (hs : s.noiseType = "white")
    (ws : List ℚ) (h : ∀ w ∈ ws, -1 ≤ w ∧ w ≤ 1) :
    ∀ o ∈ (generateBlock s ws).2, -1 ≤ o ∧ o ≤ 1 := by
  induction ws generalizing s with
  | nil => simp [generateBlock]
  | cons w ws ih =>
    have hw := h w (List.mem_cons_self w ws)
    intro o ho
    simp only [generateBlock, noiseStep_white s hs w, List.mem_cons] at ho
    rcases ho with rfl | ho
    · constructor <;> nlinarith [hw.1, hw.2]
    · exact ih s hs (fun x hx => h x (List.mem_cons_of_mem w hx)) o ho

-- Witness for white_block_in_range at a concrete block.
theorem white_block_in_range_witness :
    (initialNoiseState.noiseType = "white") ∧
    (∀ w ∈ [(1 : ℚ), -1, 0.5], -1 ≤ w ∧ w ≤ 1) ∧
    (∀ o ∈ (generateBlock initialNoiseState [(1 : ℚ), -1, 0.5]).2, -1 ≤ o ∧ o ≤ 1) :=
  ⟨rfl, by norm_num,
   white_block_in_range initialNoiseState rfl [(1 : ℚ), -1, 0.5] (by norm_num)⟩

/-- Counterexample to claim C2 as stated: for the brown type, all draws equal
to 1 (each in [-1, 1]) drive a sample above 1 within 20 steps, because the
integrator fixed point is 1 and the output is scaled by 3.5. -/
theorem brown_sample_exceeds_one :
    (∀ w ∈ List.replicate 20 (1 : ℚ), -1 ≤ w ∧ w ≤ 1) ∧
    ∃ o ∈ (generateBlock (setType initialNoiseState "brown")
            (List.replicate 20 (1 : ℚ))).2, 1 < o := by
  constructor
  · simp
  · simp [generateBlock, noiseStep, setType, initialNoiseState, List.replicate]
    norm_num

/-- One brown integrator update keeps the memory in [-1, 1] when the draw is
in [-1, 1]. -/
theorem brown_update_abs_le_one (L w : ℚ) (hL : |L| ≤ 1) (hw : |w| ≤ 1) :
    |(L + 0.02 * w) / 1.02| ≤ 1 := by
  rw [abs_div]
  rw [div_le_one (by norm_num : (0 : ℚ) < |1.02|)]
  have h1 : |L + 0.02 * w| ≤ |L| + |0.02 * w| := abs_add _ _
  have h2 : |0.02 * w| = 0.02 * |w| := by
    rw [abs_mul]
    norm_num
  have h3 : |(1.02 : ℚ)| = 1.02 := by norm_num
  rw [h3]
  rw [h2] at h1
  linarith

/-- Claim C7: for the brown integrator lastOut = (lastOut + 0.02 * w) / 1.02,
the predicate abs lastOut ≤ 1 is preserved by every per-sample step when the
draws stay in [-1, 1], so every emitted sample lastOut * 3.5 is bounded by
3.5 for arbitrarily long runs. -/
theorem brown_block_bounded (s : NoiseState) (hs : s.noiseType = "brown")
    (hL : |s.lastOut| ≤ 1) (ws : List ℚ) (h : ∀ w ∈ ws, |w| ≤ 1) :
    |(generateBlock s ws).1.lastOut| ≤ 1 ∧
      ∀ o ∈ (generateBlock s ws).2, |o| ≤ 3.5 := by
  induction ws generalizing s with
  | nil => simpa [generateBlock] using hL
  | cons w ws ih =>
    have hw := h w (List.mem_cons_self w ws)
    have hb := brown_update_abs_le_one s.lastOut w hL hw
    have hrec := ih { s with lastOut := (s.lastOut + 0.02 * w) / 1.02 } hs hb
      (fun x hx => h x (List.mem_cons_of_mem w hx))
    constructor
    · simpa [generateBlock, noiseStep_brown s hs w] using hrec.1
    · intro o ho
      simp only [generateBlock, noiseStep_brown s hs w, List.mem_cons] at ho
      rcases ho with rfl | ho
      · have : |((s.lastOut + 0.02 * w) / 1.02) * 3.5| =
            |(s.lastOut + 0.02 * w) / 1.02| * 3.5 := by
          rw [abs_mul]
          norm_num
        rw [this]
        nlinarith
      · exact hrec.2 o ho

-- Witness for brown_block_bounded at a concrete block.
theorem brown_block_bounded_witness :
    ((setType initialNoiseState "brown").noiseType = "brown") ∧
    (|(setType initialNoiseState "brown").lastOut| ≤ 1) ∧
    (∀ w ∈ [(1 : ℚ), -1], |w| ≤ 1) ∧
    (|(generateBlock (setType initialNoiseState "brown") [(1 : ℚ), -1]).1.lastOut| ≤ 1 ∧
      ∀ o ∈ (generateBlock (setType initialNoiseState "brown") [(1 : ℚ), -1]).2,
        |o| ≤ 3.5) :=
  ⟨rfl, by norm_num [setType, initialNoiseState], by norm_num,
   brown_block_bounded (setType initialNoiseState "brown") rfl
     (by norm_num [setType, initialNoiseState]) [(1 : ℚ), -1] (by norm_num)⟩

/-- Claim C8: setType changes only the active-type flag; the pink state
b0..b6 and the brown state lastOut are unchanged value-for-value, and in
particular setType at the currently active type is the identity. -/
theorem setType_only_changes_flag (s : NoiseState) (t : String) :
    (setType s t).noiseType = t ∧
    (setType s t).b0 = s.b0 ∧ (setType s t).b1 = s.b1 ∧
    (setType s t).b2 = s.b2 ∧ (setType s t).b3 = s.b3 ∧
    (setType s t).b4 = s.b4 ∧ (setType s t).b5 = s.b5 ∧
    (setType s t).b6 = s.b6 ∧ (setType s t).lastOut = s.lastOut ∧
    setType s s.noiseType = s :=
  ⟨rfl, rfl, rfl, rfl, rfl, rfl, rfl, rfl, rfl, rfl⟩

/-- Claim C5 (amended): the pink per-sample step updates the six bands
b0..b5 linearly from the draw w with the fixed source coefficients; five of
the six decay coefficients lie in [0.55, 0.999] while the band-5 coefficient
is -0.7616 (negative, with magnitude in that range); the output is the sum
of the six new bands plus the previous b6 plus w * 0.5362, scaled by 0.15;
and b6 is reassigned to w * 0.115926 after the output is computed, so the
current draw reaches b6 only for the next sample. -/
theorem pink_step_structure (s : NoiseState) (hs : s.noiseType = "pink") (w : ℚ) :
    ((noiseStep s w).1.b0 = 0.99886 * s.b0 + w * 0.0555179 ∧
     (noiseStep s w).1.b1 = 0.99332 * s.b1 + w * 0.0750759 ∧
     (noiseStep s w).1.b2 = 0.96900 * s.b2 + w * 0.1538520 ∧
     (noiseStep s w).1.b3 = 0.86650 * s.b3 + w * 0.3104856 ∧
     (noiseStep s w).1.b4 = 0.55000 * s.b4 + w * 0.5329522 ∧
     (noiseStep s w).1.b5 = -0.7616 * s.b5 - w * 0.0168980) ∧
    ((noiseStep s w).2 =
      ((0.99886 * s.b0 + w * 0.0555179) + (0.99332 * s.b1 + w * 0.0750759) +
       (0.96900 * s.b2 + w * 0.1538520) + (0.86650 * s.b3 + w * 0.3104856) +
       (0.55000 * s.b4 + w * 0.5329522) + (-0.7616 * s.b5 - w * 0.0168980) +
       s.b6 + w * 0.5362) * 0.15) ∧
    ((noiseStep s w).1.b6 = w * 0.115926) ∧
    ((noiseStep s w).1.noiseType = s.noiseType ∧
     (noiseStep s w).1.lastOut = s.lastOut) ∧
    (∀ d ∈ [(0.99886 : ℚ), 0.99332, 0.96900, 0.86650, 0.55000],
      0.55 ≤ d ∧ d ≤ 0.999) ∧
    ((-0.7616 : ℚ) < 0 ∧ 0.55 ≤ |(-0.7616 : ℚ)| ∧ |(-0.7616 : ℚ)| ≤ 0.999) := by
  refine ⟨?_, ?_, ?_, ?_, ?_, ?_⟩
  · simp [noiseStep, hs]
  · simp [noiseStep, hs]
  · simp [noiseStep, hs]
  · simp [noiseStep, hs]
  · norm_num
  · refine ⟨by norm_num, ?_, ?_⟩ <;> rw [abs_of_nonpos (by norm_num)] <;> norm_num

-- Witness for pink_step_structure at a concrete state and draw.
theorem pink_step_structure_witness :
    ((setType initialNoiseState "pink").noiseType = "pink") ∧
    (((noiseStep (setType initialNoiseState "pink") 1).1.b0 =
        0.99886 * (setType initialNoiseState "pink").b0 + 1 * 0.0555179 ∧
      (noiseStep (setType initialNoiseState "pink") 1).1.b1 =
        0.99332 * (setType initialNoiseState "pink").b1 + 1 * 0.0750759 ∧
      (noiseStep (setType initialNoiseState "pink") 1).1.b2 =
        0.96900 * (setType initialNoiseState "pink").b2 + 1 * 0.1538520 ∧
      (noiseStep (setType initialNoiseState "pink") 1).1.b3 =
        0.86650 * (setType initialNoiseState "pink").b3 + 1 * 0.3104856 ∧
      (noiseStep (setType initialNoiseState "pink") 1).1.b4 =
        0.55000 * (setType initialNoiseState "pink").b4 + 1 * 0.5329522 ∧
      (noiseStep (setType initialNoiseState "pink") 1).1.b5 =
        -0.7616 * (setType initialNoiseState "pink").b5 - 1 * 0.0168980) ∧
     ((noiseStep (setType initialNoiseState "pink") 1).2 =
       ((0.99886 * (setType initialNoiseState "pink").b0 + 1 * 0.0555179) +
        (0.99332 * (setType initialNoiseState "pink").b1 + 1 * 0.0750759) +
        (0.96900 * (setType initialNoiseState "pink").b2 + 1 * 0.1538520) +
        (0.86650 * (setType initialNoiseState "pink").b3 + 1 * 0.3104856) +
        (0.55000 * (setType initialNoiseState "pink").b4 + 1 * 0.5329522) +
        (-0.7616 * (setType initialNoiseState "pink").b5 - 1 * 0.0168980) +
        (setType initialNoiseState "pink").b6 + 1 * 0.5362) * 0.15) ∧
     ((noiseStep (setType initialNoiseState "pink") 1).1.b6 = 1 * 0.115926) ∧
     ((noiseStep (setType initialNoiseState "pink") 1).1.noiseType =
        (setType initialNoiseState "pink").noiseType ∧
      (noiseStep (setType initialNoiseState "pink") 1).1.lastOut =
        (setType initialNoiseState "pink").lastOut) ∧
     (∀ d ∈ [(0.99886 : ℚ), 0.99332, 0.96900, 0.86650, 0.55000],
       0.55 ≤ d ∧ d ≤ 0.999) ∧
     ((-0.7616 : ℚ) < 0 ∧ 0.55 ≤ |(-0.7616 : ℚ)| ∧ |(-0.7616 : ℚ)| ≤ 0.999)) :=
  ⟨rfl, pink_step_structure (setType initialNoiseState "pink") rfl 1⟩

/-- Counterexample to claim C5 as stated: starting from b5 = 1 with draw
w = 0, the band-5 update multiplies by -0.7616, which is not a decay
coefficient in [0.55, 0.999]: a band update with decay in that range would
leave the band in [0.55, 0.999], but the step yields -0.7616. -/
theorem pink_band5_decay_cex :
    (noiseStep (⟨"pink", 0, 0, 0, 0, 0, 1, 0, 0⟩ : NoiseState) 0).1.b5 = -0.7616 ∧
    ¬ ∃ d : ℚ, 0.55 ≤ d ∧ d ≤ 0.999 ∧
        (noiseStep (⟨"pink", 0, 0, 0, 0, 0, 1, 0, 0⟩ : NoiseState) 0).1.b5 = d * 1 := by
  constructor
  · simp [noiseStep]
  · rintro ⟨d, h1, h2, h3⟩
    simp [noiseStep] at h3
    linarith

/-- Claim C3 (amended): for every unrecognized type value, the per-sample
loop matches no branch, so every generated sample is 0 (the zero value the
host initializes output buffers with) and the synthesis state is unchanged:
the engine produces silence, not white noise. -/
theorem unknown_type_silence (t : String) (h1 : t ≠ "white") (h2 : t ≠ "pink")
    (h3 : t ≠ "brown") (s : NoiseState) (hs : s.noiseType = t) (ws : List ℚ) :
    (generateBlock s ws).2 = List.replicate ws.length 0 ∧
      (generateBlock s ws).1 = s := by
  induction ws generalizing s with
  | nil => simp [generateBlock]
  | cons w ws ih =>
    have hstep : noiseStep s w = (s, 0) := by
      apply noiseStep_other <;> rw [hs] <;> assumption
    have hrec := ih s hs
    simp [generateBlock, hstep, hrec.1, hrec.2, List.replicate_succ]

-- Witness for unknown_type_silence at a concrete unrecognized type.
theorem unknown_type_silence_witness :
    (("purple" : String) ≠ "white") ∧ (("purple" : String) ≠ "pink") ∧
    (("purple" : String) ≠ "brown") ∧
    ((setType initialNoiseState "purple").noiseType = "purple") ∧
    ((generateBlock (setType initialNoiseState "purple") [1, -1]).2 =
        List.replicate ([(1 : ℚ), -1]).length 0 ∧
      (generateBlock (setType initialNoiseState "purple") [1, -1]).1 =
        setType initialNoiseState "purple") :=
  ⟨by simp, by simp, by simp, rfl,
   unknown_type_silence "purple" (by simp) (by simp) (by simp)
     (setType initialNoiseState "purple") rfl [1, -1]⟩

/-- Counterexample to claim C3 as stated: with an unrecognized type and the
draw 1, the generated sample is 0, while white-noise output would be the
draw times 0.2, which is not 0. -/
theorem unknown_type_not_white_cex :
    (generateBlock (setType initialNoiseState "purple") [1]).2 = [0] ∧
    ((1 : ℚ) * 0.2 ≠ 0) := by
  constructor
  · simp [generateBlock, noiseStep, setType, initialNoiseState]
  · norm_num

/-- A preset record: the four tunable scalars gain, hp, lp, mod used by
getActiveParams and applyNoiseTuning in App.jsx. -/
structure Params where
  gain : ℚ
  hp : ℚ
  lp : ℚ
  mod : ℚ
  deriving Repr, DecidableEq

/-- Initial customSettings React state in App.jsx. -/
def initialCustomSettings : Params :=
  { gain := 0.15, hp := 300, lp := 1000, mod := 150 }

/-- getActiveParams from App.jsx: the preset table plus the custom
pseudo-type, which returns the current customSettings; any other key is
absent from the object (JS undefined, modelled as none). -/
def getActiveParams (customSettings : Params) : String → Option Params
  | "white" => some { gain := 0.12, hp := 350, lp := 1100, mod := 80 }
  | "pink" => some { gain := 0.12, hp := 500, lp := 800, mod := 100 }
  | "brown" => some { gain := 0.25, hp := 250, lp := 600, mod := 150 }
  | "custom" => some customSettings
  | _ => none

/-- An AudioParam as the control layer uses it: the last directly-assigned
value and the current setTargetAtTime target and time-constant. -/
structure AParam where
  value : ℚ
  target : ℚ
  tau : ℚ
  deriving Repr, DecidableEq

/-- An AudioParam holding a directly-assigned value, before any
setTargetAtTime call. -/
def constParam (v : ℚ) : AParam := { value := v, target := v, tau := 0 }

/-- setTargetAtTime on an AudioParam: retargets the exponential approach to
v with time-constant tau; the current value is not jumped. -/
def setTargetAtTime (p : AParam) (v tau : ℚ) : AParam :=
  { p with target := v, tau := tau }

/-- The audioRef record built by initAudio in App.jsx, restricted to the
fields the control handlers read or write: the main noise generator state
and the AudioParams of masterGain, highpass frequency, lowpass frequency,
lfoGainL (mod depth) and rainGain. -/
structure AppAudio where
  noise : NoiseState
  gain : AParam
  highpassFreq : AParam
  lowpassFreq : AParam
  lfoGain : AParam
  rainGain : AParam
  deriving Repr, DecidableEq

/-- The four setTargetAtTime calls in the body of applyNoiseTuning, all with
time-constant 0.2. -/
def applyParams (a : AppAudio) (p : Params) : AppAudio :=
  { a with gain := setTargetAtTime a.gain p.gain 0.2
           highpassFreq := setTargetAtTime a.highpassFreq p.hp 0.2
           lowpassFreq := setTargetAtTime a.lowpassFreq p.lp 0.2
           lfoGain := setTargetAtTime a.lfoGain p.mod 0.2 }

/-- applyNoiseTuning from App.jsx: params is settings when given, otherwise
the getActiveParams lookup for the type; a missing lookup (unknown type) is
a JS runtime fault, modelled as none. -/
def applyNoiseTuning (a : AppAudio) (type : String) (settings : Option Params)
    (cs : Params) : Option AppAudio :=
  (settings.orElse fun _ => getActiveParams cs type).map fun p => applyParams a p

/-- initAudio from App.jsx (state part): masterGain.gain.value starts at 0,
rainGain.gain.value starts at 0.08 when rainActive else 0, and then
applyNoiseTuning is applied for the current noiseType.  The highpass and
lowpass frequencies and the lfoGain gain are not assigned before the tuning
call, so they carry the Web Audio defaults 350, 350 and 1. -/
def initAudio (rainActive : Bool) (noiseType : String) (cs : Params) :
    Option AppAudio :=
  applyNoiseTuning
    { noise := initialNoiseState
      gain := constParam 0
      highpassFreq := constParam 350
      lowpassFreq := constParam 350
      lfoGain := constParam 1
      rainGain := constParam (if rainActive then 0.08 else 0) }
    noiseType none cs

/-- toggleRain from App.jsx: flips the rainActive flag and retargets only
rainGain, to 0.08 when the new state is active else 0, with time-constant
0.5. -/
def toggleRain (rainActive : Bool) (a : AppAudio) : Bool × AppAudio :=
  (!rainActive,
   { a with rainGain := setTargetAtTime a.rainGain (if !rainActive then 0.08 else 0) 0.5 })

/-- The synchronous part of changeNoise in App.jsx: retargets masterGain to
0 with time-constant 0.05 before scheduling the delayed callback. -/
def changeNoiseImmediate (a : AppAudio) : AppAudio :=
  { a with gain := setTargetAtTime a.gain 0 0.05 }

/-- The setTimeout delay of changeNoise, in milliseconds. -/
def changeNoiseDelayMs : ℚ := 100

/-- The body of the setTimeout callback in changeNoise: setType on the
generator (mapping custom to white), then applyNoiseTuning for the requested
type (the setNoiseType React state update is tracked by the scheduler
below). -/
def changeNoiseCallback (cs : Params) (type : String) (a : AppAudio) :
    Option AppAudio :=
  applyNoiseTuning
    { a with noise := setType a.noise (if type = "custom" then "white" else type) }
    type none cs

/-- Control-path scheduler state: current time in milliseconds, the audio
record, the React noiseType state, the not-yet-fired setTimeout callbacks as
(fire time, requested type) in scheduling order, and the trace of types
whose presets the fired callbacks applied. -/
structure Sched where
  now : ℚ
  engine : AppAudio
  uiType : String
  pending : List (ℚ × String)
  applied : List String
  deriving Repr, DecidableEq

/-- A changeNoise call on the control path: the immediate gain retarget runs
now, and one callback is appended, scheduled 100 ms later.  changeNoise
never cancels an already-pending callback. -/
def requestChange (sc : Sched) (type : String) : Sched :=
  { sc with engine := changeNoiseImmediate sc.engine
            pending := sc.pending ++ [(sc.now + changeNoiseDelayMs, type)] }

/-- Passage of time on the control path with no event firing. -/
def advance (sc : Sched) (dt : ℚ) : Sched := { sc with now := sc.now + dt }

/-- Fire one pending setTimeout callback. -/
def fireOne (cs : Params) (sc : Sched) (ev : ℚ × String) : Option Sched :=
  (changeNoiseCallback cs ev.2 sc.engine).map fun e =>
    { sc with now := ev.1, engine := e, uiType := ev.2
              applied := sc.applied ++ [ev.2] }

/-- Fire every pending callback, in scheduling order.  Because every
changeNoise timeout uses the same 100 ms delay, pending callbacks fire in
exactly the order they were scheduled. -/
def fireAll (cs : Params) (sc : Sched) : Option Sched :=
  List.foldlM (fireOne cs) { sc with pending := [] } sc.pending

/-- The audio nodes constructed by initAudio (current App.jsx version first;
the nodes of the earlier, single-path version are a subset, reusing
mainNoise, highpass, lowpass, masterGain, analyser, destination, lfoL and
lfoGainL). -/
inductive GNode
  | mainNoise
  | rainNoise
  | highpass
  | lowpass
  | rainFilter
  | rainGain
  | masterGain
  | panner
  | analyser
  | destination
  | lfoL
  | lfoGainL
  | lfoR
  | lfoGainR
  | panLfo
  | panGain
  deriving DecidableEq, Fintype, Repr

/-- Web Audio node kinds relevant here.  biquadPeaking and
dynamicsCompressor are the kinds a peaking-notch stage and a dynamics
limiter would have; they are listed so that their absence from the
constructed graph is expressible. -/
inductive NodeKind
  | scriptProcessor
  | biquadHighpass
  | biquadLowpass
  | biquadPeaking
  | gainUnit
  | stereoPanner
  | analyserUnit
  | oscillator
  | dynamicsCompressor
  | destinationUnit
  deriving DecidableEq, Repr

/-- The kind of each node, read off the create calls and type assignments in
initAudio. -/
def nodeKind : GNode → NodeKind
  | GNode.mainNoise => NodeKind.scriptProcessor
  | GNode.rainNoise => NodeKind.scriptProcessor
  | GNode.highpass => NodeKind.biquadHighpass
  | GNode.lowpass => NodeKind.biquadLowpass
  | GNode.rainFilter => NodeKind.biquadHighpass
  | GNode.rainGain => NodeKind.gainUnit
  | GNode.masterGain => NodeKind.gainUnit
  | GNode.panner => NodeKind.stereoPanner
  | GNode.analyser => NodeKind.analyserUnit
  | GNode.destination => NodeKind.destinationUnit
  | GNode.lfoL => NodeKind.oscillator
  | GNode.lfoGainL => NodeKind.gainUnit
  | GNode.lfoR => NodeKind.oscillator
  | GNode.lfoGainR => NodeKind.gainUnit
  | GNode.panLfo => NodeKind.oscillator
  | GNode.panGain => NodeKind.gainUnit

/-- AudioParam destinations of node-to-param connections in initAudio. -/
inductive PDest
  | frequency
  | pan
  deriving DecidableEq, Repr

/-- The node-to-node connect calls of initAudio, in source order. -/
def connections : List (GNode × GNode) :=
  [(GNode.lfoL, GNode.lfoGainL),
   (GNode.lfoR, GNode.lfoGainR),
   (GNode.panLfo, GNode.panGain),
   (GNode.mainNoise, GNode.highpass),
   (GNode.highpass, GNode.lowpass),
   (GNode.lowpass, GNode.panner),
   (GNode.rainNoise, GNode.rainFilter),
   (GNode.rainFilter, GNode.rainGain),
   (GNode.rainGain, GNode.panner),
   (GNode.panner, GNode.masterGain),
   (GNode.masterGain, GNode.analyser),
   (GNode.analyser, GNode.destination)]

/-- The node-to-AudioParam connect calls of initAudio, in source order. -/
def paramConnections : List (GNode × GNode × PDest) :=
  [(GNode.lfoGainL, GNode.lowpass, PDest.frequency),
   (GNode.lfoGainR, GNode.lowpass, PDest.frequency),
   (GNode.panGain, GNode.panner, PDest.pan)]

/-- The node-to-node connect calls of the earlier single-path initAudio
version, in source order. -/
def connectionsSecondVersion : List (GNode × GNode) :=
  [(GNode.lfoL, GNode.lfoGainL),
   (GNode.mainNoise, GNode.highpass),
   (GNode.highpass, GNode.lowpass),
   (GNode.lowpass, GNode.masterGain),
   (GNode.masterGain, GNode.analyser),
   (GNode.analyser, GNode.destination)]

/-- The node-to-AudioParam connect calls of the earlier single-path initAudio
version. -/
def paramConnectionsSecondVersion : List (GNode × GNode × PDest) :=
  [(GNode.lfoGainL, GNode.lowpass, PDest.frequency)]

/-- Oscillator frequencies assigned in initAudio. -/
def oscFrequency : GNode → Option ℚ
  | GNode.lfoL => some 0.03
  | GNode.lfoR => some 0.037
  | GNode.panLfo => some 0.02
  | _ => none

/-- Filter frequencies assigned directly (not smoothed) in initAudio. -/
def fixedFilterFrequency : GNode → Option ℚ
  | GNode.rainFilter => some 5000
  | _ => none

/-- The gain value assigned to panGain in initAudio: the pan LFO depth. -/
def panGainInitial : ℚ := 0.3

/-- Counterexample to claim C1: in the constructed graph (both initAudio
versions) the highpass connects directly to the lowpass, and no node of the
peaking-notch or dynamics-compressor kind exists anywhere, so the claimed
five-stage cascade highpass, notch, lowpass, limiter, master gain is absent. -/
theorem filter_chain_no_notch_no_limiter_cex :
    ((GNode.highpass, GNode.lowpass) ∈ connections) ∧
    ((GNode.highpass, GNode.lowpass) ∈ connectionsSecondVersion) ∧
    (∀ n : GNode, nodeKind n ≠ NodeKind.biquadPeaking) ∧
    (∀ n : GNode, nodeKind n ≠ NodeKind.dynamicsCompressor) := by
  decide

/-- Claim C1 (amended): the fixed signal path of the constructed engine is
noise source, highpass, lowpass, stereo panner, master gain, analyser,
output, each of those stages having exactly one outgoing audio connection;
there is no peaking-notch stage and no dynamics-limiter stage.  In the
earlier single-path version the panner is absent and the lowpass feeds the
master gain directly. -/
theorem filter_chain_actual_order :
    ((GNode.mainNoise, GNode.highpass) ∈ connections) ∧
    ((GNode.highpass, GNode.lowpass) ∈ connections) ∧
    ((GNode.lowpass, GNode.panner) ∈ connections) ∧
    ((GNode.panner, GNode.masterGain) ∈ connections) ∧
    ((GNode.masterGain, GNode.analyser) ∈ connections) ∧
    ((GNode.analyser, GNode.destination) ∈ connections) ∧
    (connections.filter (fun e => e.1 = GNode.mainNoise) =
      [(GNode.mainNoise, GNode.highpass)]) ∧
    (connections.filter (fun e => e.1 = GNode.highpass) =
      [(GNode.highpass, GNode.lowpass)]) ∧
    (connections.filter (fun e => e.1 = GNode.lowpass) =
      [(GNode.lowpass, GNode.panner)]) ∧
    (connections.filter (fun e => e.1 = GNode.panner) =
      [(GNode.panner, GNode.masterGain)]) ∧
    (connections.filter (fun e => e.1 = GNode.masterGain) =
      [(GNode.masterGain, GNode.analyser)]) ∧
    (connections.filter (fun e => e.1 = GNode.analyser) =
      [(GNode.analyser, GNode.destination)]) ∧
    (∀ n : GNode, nodeKind n ≠ NodeKind.biquadPeaking ∧
                  nodeKind n ≠ NodeKind.dynamicsCompressor) ∧
    nodeKind GNode.highpass = NodeKind.biquadHighpass ∧
    nodeKind GNode.lowpass = NodeKind.biquadLowpass ∧
    nodeKind GNode.masterGain = NodeKind.gainUnit ∧
    ((GNode.lowpass, GNode.masterGain) ∈ connectionsSecondVersion) ∧
    (connectionsSecondVersion.filter (fun e => e.1 = GNode.highpass) =
      [(GNode.highpass, GNode.lowpass)]) := by
  decide

/-- Counterexample to claim C6: no node-to-AudioParam connection of either
initAudio version targets the master gain, so no LFO steers the master
amplitude; in particular no breathe LFO on the master gain exists. -/
theorem no_lfo_on_master_gain_cex :
    (∀ e ∈ paramConnections, e.2.1 ≠ GNode.masterGain) ∧
    (∀ e ∈ paramConnectionsSecondVersion, e.2.1 ≠ GNode.masterGain) := by
  decide

/-- Claim C6 (amended): the modulation subsystem consists of two LFOs at
0.03 Hz and 0.037 Hz whose scaled outputs feed the lowpass cutoff, and one
pan LFO at 0.02 Hz with fixed depth 0.3 feeding the stereo position; every
modulation route ends at the lowpass frequency or the panner pan, and none
ends at the master gain, whose amplitude is steered only by setTargetAtTime
retargets. -/
theorem modulation_routes :
    paramConnections = [(GNode.lfoGainL, GNode.lowpass, PDest.frequency),
                        (GNode.lfoGainR, GNode.lowpass, PDest.frequency),
                        (GNode.panGain, GNode.panner, PDest.pan)] ∧
    oscFrequency GNode.lfoL = some 0.03 ∧
    oscFrequency GNode.lfoR = some 0.037 ∧
    oscFrequency GNode.panLfo = some 0.02 ∧
    panGainInitial = 0.3 ∧
    (∀ e ∈ paramConnections,
      (e.2.1 = GNode.lowpass ∧ e.2.2 = PDest.frequency) ∨
      (e.2.1 = GNode.panner ∧ e.2.2 = PDest.pan)) ∧
    (∀ e ∈ paramConnections, e.2.1 ≠ GNode.masterGain) := by
  refine ⟨rfl, rfl, rfl, rfl, rfl, by decide, by decide⟩

/-- Claim C10: the rain path is a second, independent noise source connected
through its own 5000 Hz highpass into a dedicated rain gain that joins the
shared panner-to-master chain; initAudio starts the rain gain at 0.08 when
rain is active and 0 otherwise; toggleRain retargets only the rain gain
(to 0.08 or 0 with time-constant 0.5) and leaves the main noise state, the
master gain and the filter and mod parameters unchanged. -/
theorem rain_path_independent (active : Bool) (a : AppAudio) (cs : Params) :
    ((GNode.rainNoise, GNode.rainFilter) ∈ connections) ∧
    ((GNode.rainFilter, GNode.rainGain) ∈ connections) ∧
    ((GNode.rainGain, GNode.panner) ∈ connections) ∧
    ((GNode.lowpass, GNode.panner) ∈ connections) ∧
    ((GNode.panner, GNode.masterGain) ∈ connections) ∧
    GNode.rainNoise ≠ GNode.mainNoise ∧
    nodeKind GNode.rainNoise = NodeKind.scriptProcessor ∧
    nodeKind GNode.rainFilter = NodeKind.biquadHighpass ∧
    fixedFilterFrequency GNode.rainFilter = some 5000 ∧
    ((initAudio active "white" cs).map (fun e => e.rainGain.value) =
      some (if active then 0.08 else 0)) ∧
    (toggleRain active a).1 = !active ∧
    (toggleRain active a).2.rainGain =
      setTargetAtTime a.rainGain (if !active then 0.08 else 0) 0.5 ∧
    (toggleRain active a).2.noise = a.noise ∧
    (toggleRain active a).2.gain = a.gain ∧
    (toggleRain active a).2.highpassFreq = a.highpassFreq ∧
    (toggleRain active a).2.lowpassFreq = a.lowpassFreq ∧
    (toggleRain active a).2.lfoGain = a.lfoGain := by
  refine ⟨by decide, by decide, by decide, by decide, by decide, by decide,
    rfl, rfl, rfl, ?_, rfl, rfl, rfl, rfl, rfl, rfl, rfl⟩
  cases active <;>
    simp [initAudio, applyNoiseTuning, getActiveParams, applyParams,
      Option.orElse, constParam]

/-- Claim C9: every changeNoise request immediately retargets the master
gain to 0 with time-constant 0.05 and alters nothing else synchronously; its
callback is scheduled 100 ms later; that callback calls setType on the
generator with custom mapped to white and retargets the gain, highpass,
lowpass and mod-depth params to the looked-up preset, each with
time-constant 0.2; and the custom lookup returns the current custom
settings. -/
theorem changeNoise_structure (a : AppAudio) (cs : Params) (type : String)
    (p : Params) (hp : getActiveParams cs type = some p) :
    (changeNoiseImmediate a).gain = setTargetAtTime a.gain 0 0.05 ∧
    (changeNoiseImmediate a).noise = a.noise ∧
    (changeNoiseImmediate a).highpassFreq = a.highpassFreq ∧
    (changeNoiseImmediate a).lowpassFreq = a.lowpassFreq ∧
    (changeNoiseImmediate a).lfoGain = a.lfoGain ∧
    (changeNoiseImmediate a).rainGain = a.rainGain ∧
    changeNoiseDelayMs = 100 ∧
    (∀ sc : Sched, (requestChange sc type).pending =
      sc.pending ++ [(sc.now + 100, type)]) ∧
    changeNoiseCallback cs type a = some
      { noise := setType a.noise (if type = "custom" then "white" else type)
        gain := setTargetAtTime a.gain p.gain 0.2
        highpassFreq := setTargetAtTime a.highpassFreq p.hp 0.2
        lowpassFreq := setTargetAtTime a.lowpassFreq p.lp 0.2
        lfoGain := setTargetAtTime a.lfoGain p.mod 0.2
        rainGain := a.rainGain } ∧
    getActiveParams cs "custom" = some cs := by
  refine ⟨rfl, rfl, rfl, rfl, rfl, rfl, rfl, ?_, ?_, rfl⟩
  · intro sc
    simp [requestChange, changeNoiseDelayMs]
  · simp [changeNoiseCallback, applyNoiseTuning, Option.orElse, hp, applyParams]

/-- A fixed engine record for the closed witnesses: the state initAudio
builds before its initial tuning call, with rain inactive. -/
def sampleEngine : AppAudio :=
  { noise := initialNoiseState
    gain := constParam 0
    highpassFreq := constParam 350
    lowpassFreq := constParam 350
    lfoGain := constParam 1
    rainGain := constParam 0 }

-- Witness for changeNoise_structure at the pink preset.
theorem changeNoise_structure_witness :
    (getActiveParams initialCustomSettings "pink" =
      some { gain := 0.12, hp := 500, lp := 800, mod := 100 }) ∧
    ((changeNoiseImmediate sampleEngine).gain =
        setTargetAtTime sampleEngine.gain 0 0.05 ∧
     (changeNoiseImmediate sampleEngine).noise = sampleEngine.noise ∧
     (changeNoiseImmediate sampleEngine).highpassFreq = sampleEngine.highpassFreq ∧
     (changeNoiseImmediate sampleEngine).lowpassFreq = sampleEngine.lowpassFreq ∧
     (changeNoiseImmediate sampleEngine).lfoGain = sampleEngine.lfoGain ∧
     (changeNoiseImmediate sampleEngine).rainGain = sampleEngine.rainGain ∧
     changeNoiseDelayMs = 100 ∧
     (∀ sc : Sched, (requestChange sc "pink").pending =
       sc.pending ++ [(sc.now + 100, "pink")]) ∧
     changeNoiseCallback initialCustomSettings "pink" sampleEngine = some
       { noise := setType sampleEngine.noise
           (if "pink" = "custom" then "white" else "pink")
         gain := setTargetAtTime sampleEngine.gain
           (Params.gain { gain := 0.12, hp := 500, lp := 800, mod := 100 }) 0.2
         highpassFreq := setTargetAtTime sampleEngine.highpassFreq
           (Params.hp { gain := 0.12, hp := 500, lp := 800, mod := 100 }) 0.2
         lowpassFreq := setTargetAtTime sampleEngine.lowpassFreq
           (Params.lp { gain := 0.12, hp := 500, lp := 800, mod := 100 }) 0.2
         lfoGain := setTargetAtTime sampleEngine.lfoGain
           (Params.mod { gain := 0.12, hp := 500, lp := 800, mod := 100 }) 0.2
         rainGain := sampleEngine.rainGain } ∧
     getActiveParams initialCustomSettings "custom" = some initialCustomSettings) :=
  ⟨rfl, changeNoise_structure sampleEngine initialCustomSettings "pink"
    { gain := 0.12, hp := 500, lp := 800, mod := 100 } rfl⟩

/-- Two changeNoise requests on the control path: the first for type A, then
after dt milliseconds a second for type B, starting from an idle scheduler. -/
def twoRequests (e : AppAudio) (u : String) (t0 dt : ℚ) (A B : String) : Sched :=
  requestChange (advance (requestChange ⟨t0, e, u, [], []⟩ A) dt) B

/-- Claim C4 (amended): when a second type change B is requested while the
change to A is still pending, nothing is cancelled: both setTimeout
callbacks fire in scheduling order, A's preset retarget is applied first and
then B's, so the engine ends at B's preset, with the generator type at B
(custom mapped to white), purely because the later callback overwrites the
earlier one. -/
theorem last_request_wins_final_state (e : AppAudio) (cs : Params)
    (u A B : String) (pA pB : Params) (t0 dt : ℚ)
    (hA : getActiveParams cs A = some pA) (hB : getActiveParams cs B = some pB)
    (hdt0 : 0 ≤ dt) (hdt : dt < changeNoiseDelayMs) :
    (fireAll cs (twoRequests e u t0 dt A B)).map (fun sc => sc.applied) =
      some [A, B] ∧
    (fireAll cs (twoRequests e u t0 dt A B)).map (fun sc => sc.uiType) = some B ∧
    (fireAll cs (twoRequests e u t0 dt A B)).map
      (fun sc => sc.engine.gain.target) = some pB.gain ∧
    (fireAll cs (twoRequests e u t0 dt A B)).map
      (fun sc => sc.engine.gain.tau) = some 0.2 ∧
    (fireAll cs (twoRequests e u t0 dt A B)).map
      (fun sc => sc.engine.highpassFreq.target) = some pB.hp ∧
    (fireAll cs (twoRequests e u t0 dt A B)).map
      (fun sc => sc.engine.lowpassFreq.target) = some pB.lp ∧
    (fireAll cs (twoRequests e u t0 dt A B)).map
      (fun sc => sc.engine.lfoGain.target) = some pB.mod ∧
    (fireAll cs (twoRequests e u t0 dt A B)).map
      (fun sc => sc.engine.noise.noiseType) =
      some (if B = "custom" then "white" else B) := by
  refine ⟨?_, ?_, ?_, ?_, ?_, ?_, ?_, ?_⟩ <;>
    simp [twoRequests, requestChange, advance, fireAll, fireOne, List.foldlM,
      changeNoiseCallback, applyNoiseTuning, Option.orElse, hA, hB,
      applyParams, setTargetAtTime, changeNoiseImmediate, setType]

-- Witness for last_request_wins_final_state: pink requested, then brown
-- 50 ms later.
theorem last_request_wins_final_state_witness :
    (getActiveParams initialCustomSettings "pink" =
      some { gain := 0.12, hp := 500, lp := 800, mod := 100 }) ∧
    (getActiveParams initialCustomSettings "brown" =
      some { gain := 0.25, hp := 250, lp := 600, mod := 150 }) ∧
    ((0 : ℚ) ≤ 50) ∧ ((50 : ℚ) < changeNoiseDelayMs) ∧
    ((fireAll initialCustomSettings
        (twoRequests sampleEngine "white" 0 50 "pink" "brown")).map
        (fun sc => sc.applied) = some ["pink", "brown"] ∧
     (fireAll initialCustomSettings
        (twoRequests sampleEngine "white" 0 50 "pink" "brown")).map
        (fun sc => sc.uiType) = some "brown" ∧
     (fireAll initialCustomSettings
        (twoRequests sampleEngine "white" 0 50 "pink" "brown")).map
        (fun sc => sc.engine.gain.target) =
        some (Params.gain { gain := 0.25, hp := 250, lp := 600, mod := 150 }) ∧
     (fireAll initialCustomSettings
        (twoRequests sampleEngine "white" 0 50 "pink" "brown")).map
        (fun sc => sc.engine.gain.tau) = some 0.2 ∧
     (fireAll initialCustomSettings
        (twoRequests sampleEngine "white" 0 50 "pink" "brown")).map
        (fun sc => sc.engine.highpassFreq.target) =
        some (Params.hp { gain := 0.25, hp := 250, lp := 600, mod := 150 }) ∧
     (fireAll initialCustomSettings
        (twoRequests sampleEngine "white" 0 50 "pink" "brown")).map
        (fun sc => sc.engine.lowpassFreq.target) =
        some (Params.lp { gain := 0.25, hp := 250, lp := 600, mod := 150 }) ∧
     (fireAll initialCustomSettings
        (twoRequests sampleEngine "white" 0 50 "pink" "brown")).map
        (fun sc => sc.engine.lfoGain.target) =
        some (Params.mod { gain := 0.25, hp := 250, lp := 600, mod := 150 }) ∧
     (fireAll initialCustomSettings
        (twoRequests sampleEngine "white" 0 50 "pink" "brown")).map
        (fun sc => sc.engine.noise.noiseType) =
        some (if "brown" = "custom" then "white" else "brown")) :=
  ⟨rfl, rfl, by norm_num, by norm_num [changeNoiseDelayMs],
   last_request_wins_final_state sampleEngine initialCustomSettings
     "white" "pink" "brown"
     { gain := 0.12, hp := 500, lp := 800, mod := 100 }
     { gain := 0.25, hp := 250, lp := 600, mod := 150 }
     0 50 rfl rfl (by norm_num) (by norm_num [changeNoiseDelayMs])⟩

/-- The concrete run refuting claim C4 as stated: pink requested at 0 ms,
brown at 50 ms, then all pending callbacks fire. -/
def c4run : Option Sched :=
  (initAudio false "white" initialCustomSettings).bind fun e =>
    fireAll initialCustomSettings (twoRequests e "white" 0 50 "pink" "brown")

/-- Counterexample to claim C4 as stated: requesting pink then brown 50 ms
later (within the 100 ms quiet period) does not cancel the pending pink
callback; the fired-callback trace is [pink, brown], so a retarget to the
pink preset is applied even though pink was superseded. -/
theorem superseded_retarget_fires_cex :
    c4run.map (fun sc => sc.applied) = some ["pink", "brown"] ∧
    c4run.map (fun sc => sc.uiType) = some "brown" ∧
    "pink" ∈ ["pink", "brown"] ∧ ("pink" : String) ≠ "brown" := by
  refine ⟨?_, ?_, by simp, by simp⟩ <;>
    simp [c4run, initAudio, twoRequests, requestChange, advance, fireAll,
      fireOne, List.foldlM, changeNoiseCallback, applyNoiseTuning,
      Option.orElse, getActiveParams, applyParams, setTargetAtTime,
      changeNoiseImmediate, setType, constParam]

end ZenEngine
